import Mathlib

/-!
Verification of the gesture-recognition core of track-vision-sensor-py.

The landmark engine (`src/gesture_recognizer.py`) is embedded over ℝ:
a raw landmark vector is a `List ℝ` (42 scalars = 21 two-dimensional
points), and the numpy `reshape(21, 2)` view is the function sending
point index `i` to the pair of scalars at flat positions `2*i` and
`2*i+1`.  Exceptions are modelled as `Option`/`Except`.  The
frame-pipeline code (`src/main.py`, `src/rpicam_video.py`) is embedded
as pure state-passing functions on lists.
-/

namespace GR

/-- Embedding of `np.array(landmarks).reshape(21, 2)`: point `i` of the
flat 42-scalar vector. -/
def reshape (v : List ℝ) (i : Fin 21) : ℝ × ℝ :=
  (v.getD (2 * i.val) 0, v.getD (2 * i.val + 1) 0)

/-- Embedding of `centered_points = points - palm_center` in
`normalize_landmarks`, where `palm_center = points[9]`. -/
def centered_points (v : List ℝ) (i : Fin 21) : ℝ × ℝ :=
  ((reshape v i).1 - (reshape v 9).1, (reshape v i).2 - (reshape v 9).2)

/-- Embedding of `scale = np.linalg.norm(middle_finger_tip)` where
`middle_finger_tip = centered_points[12]`. -/
noncomputable def tipScale (v : List ℝ) : ℝ :=
  Real.sqrt ((centered_points v 12).1 ^ 2 + (centered_points v 12).2 ^ 2)

/-- Embedding of `GestureRecognizer.normalize_landmarks`.  A wrong-length
input raises `ValueError` in the source; that is modelled as `none`.
The returned flat 42-float array is represented through its 21-point
view (the inverse of `reshape`). -/
noncomputable def normalize_landmarks (v : List ℝ) : Option (Fin 21 → ℝ × ℝ) :=
  if v.length = 42 then
    some (if 0 < tipScale v then
            fun i => ((centered_points v i).1 / tipScale v,
                      (centered_points v i).2 / tipScale v)
          else centered_points v)
  else none

/-- Embedding of `np.dot(norm1, norm2)` on the flat 42-float arrays,
written as a sum over the 21 points. -/
noncomputable def dotP (a b : Fin 21 → ℝ × ℝ) : ℝ :=
  ∑ i, ((a i).1 * (b i).1 + (a i).2 * (b i).2)

/-- Embedding of `np.linalg.norm` on a flat 42-float array, written as a
sum over the 21 points. -/
noncomputable def normP (a : Fin 21 → ℝ × ℝ) : ℝ :=
  Real.sqrt (∑ i, ((a i).1 ^ 2 + (a i).2 ^ 2))

/-- Embedding of `GestureRecognizer.calculate_similarity`.  The
`try/except` around the two `normalize_landmarks` calls returns `0.0`
when either raises, i.e. in the `none` cases. -/
noncomputable def calculate_similarity (l1 l2 : List ℝ) : ℝ :=
  match normalize_landmarks l1, normalize_landmarks l2 with
  | some norm1, some norm2 =>
      let dot_product := dotP norm1 norm2
      let norm_product := normP norm1 * normP norm2
      if norm_product = 0 then 0 else (dot_product / norm_product + 1) / 2
  | _, _ => 0

/-- Embedding of one stored gesture's value dict, with the fields in the
order `add_gesture` writes them. -/
structure GestureData where
  landmarks : List ℝ
  created_at : String
  description : String
  trigger_action : String
  trigger_data : String

/-- Embedding of the dict `recognize_gesture` returns on a match. -/
structure MatchResult where
  name : String
  similarity : ℝ
  trigger_action : String
  trigger_data : String
  description : String

/-- Embedding of the `settings` dict of `GestureRecognizer`. -/
structure RecognizerSettings where
  similarity_threshold : ℝ
  recognition_enabled : Bool
  cooldown_time : ℝ

/-- Embedding of one iteration of the `for gesture_name, gesture_data in
self.gestures.items()` loop body of `recognize_gesture`; the accumulator
carries `(best_match, best_similarity)`. -/
noncomputable def recognizeStep (settings : RecognizerSettings)
    (last_trigger_time : String → ℝ) (current_time : ℝ) (landmarks : List ℝ)
    (acc : Option MatchResult × ℝ) (entry : String × GestureData) :
    Option MatchResult × ℝ :=
  let similarity := calculate_similarity landmarks entry.2.landmarks
  if similarity > acc.2 ∧ similarity ≥ settings.similarity_threshold then
    if current_time - last_trigger_time entry.1 ≥ settings.cooldown_time then
      (some ⟨entry.1, similarity, entry.2.trigger_action, entry.2.trigger_data,
             entry.2.description⟩, similarity)
    else acc
  else acc

/-- Embedding of `GestureRecognizer.recognize_gesture`.  The gesture dict
is an insertion-ordered association list, `last_trigger_time` is the dict
with default 0 (`.get(name, 0)`), `current_time` stands for `time.time()`.
Returns the match (if any) together with the updated `last_trigger_time`. -/
noncomputable def recognize_gesture (gestures : List (String × GestureData))
    (settings : RecognizerSettings) (last_trigger_time : String → ℝ)
    (current_time : ℝ) (landmarks : List ℝ) :
    Option MatchResult × (String → ℝ) :=
  if settings.recognition_enabled = false ∨ gestures.isEmpty = true then
    (none, last_trigger_time)
  else
    let best := gestures.foldl
      (recognizeStep settings last_trigger_time current_time landmarks) (none, 0)
    match best.1 with
    | some m => (some m, fun n => if n = m.name then current_time else last_trigger_time n)
    | none => (none, last_trigger_time)

/-- Insertion into the gesture dict: `self.gestures[name] = ...` keeps the
original position of an existing key and appends a new key at the end. -/
def insertGesture : List (String × GestureData) → String → GestureData →
    List (String × GestureData)
  | [], n, g => [(n, g)]
  | (k, d) :: rest, n, g =>
      if k = n then (n, g) :: rest else (k, d) :: insertGesture rest n g

/-- Embedding of `GestureRecognizer.add_gesture`.  The `ValueError` raised
on a wrong-length vector is modelled as `Except.error`; on success the
updated gesture dict is returned (the synchronous save persists exactly
this dict).  `created_at` stands for `time.strftime(...)`; the
`trigger_data or f"/gesture/.."` default maps the empty string to the
name-derived default. -/
def add_gesture (gestures : List (String × GestureData)) (name : String)
    (landmarks : List ℝ) (description trigger_action trigger_data created_at : String) :
    Except String (List (String × GestureData)) :=
  if landmarks.length ≠ 42 then Except.error "InvalidLandmarkCount"
  else Except.ok (insertGesture gestures name
    { landmarks := landmarks
      created_at := created_at
      description := description
      trigger_action := trigger_action
      trigger_data := if trigger_data = "" then "/gesture/" ++ name else trigger_data })

/-- Embedding of the overflow-handling push in
`ThreadedFrameReader._read_frames` (and `RpiCameraVideo._frame_reader`):
if the queue is full, drop the oldest item (`get_nowait`), then append
the new frame (`put_nowait`, skipped if somehow still full).  The list
front is the oldest queued frame. -/
def pushFrame {α : Type} (cap : Nat) (q : List α) (x : α) : List α :=
  let q1 := if cap ≤ q.length then q.drop 1 else q
  if q1.length < cap then q1 ++ [x] else q1

/-- Embedding of the drain loop of `ThreadedFrameReader.get_latest_frame`:
repeatedly `get_nowait` until the queue is empty, keeping the last item
obtained. -/
def drainLatest {α : Type} : List α → Option α → Option α
  | [], acc => acc
  | x :: rest, _ => drainLatest rest (some x)

/-- Embedding of `ThreadedFrameReader.get_latest_frame` restricted to the
nonblocking drain (the freshest queued frame, if any). -/
def get_latest_frame {α : Type} (q : List α) : Option α :=
  drainLatest q none

/-- Embedding of `ThreadedFrameReader.is_healthy`; `current_time` stands
for `time.time()`. -/
noncomputable def is_healthy (running : Bool) (current_time last_frame_time : ℝ)
    (consecutive_failures max_failures : Nat) : Bool :=
  if running = false then false
  else decide (current_time - last_frame_time < 3.0) &&
       decide (consecutive_failures < max_failures)

/-- Embedding of the inner `while len(buffer) >= yuv_frame_size` slicing
loop of `RpiCameraVideo._frame_reader`: returns the sliced-off frames in
order and the remaining buffer.  The source loop does not terminate when
`fs = 0` (it can never shrink the buffer below 0 bytes), so the
recursion additionally guards on `0 < fs`; all theorems assume a
positive frame size, as holds for `width*height*3//2` with real
dimensions. -/
def sliceFrames {β : Type} (fs : Nat) (buffer : List β) :
    List (List β) × List β :=
  if h : 0 < fs ∧ fs ≤ buffer.length then
    let r := sliceFrames fs (buffer.drop fs)
    (buffer.take fs :: r.1, r.2)
  else ([], buffer)
termination_by buffer.length
decreasing_by
  simp only [List.length_drop]
  omega

/-- Embedding of the chunk-accumulation outer loop of
`RpiCameraVideo._frame_reader`: each arriving chunk is appended to the
byte buffer (`buffer.extend(chunk)`) and all complete frames are sliced
off.  The accumulator carries the frames decoded so far and the current
buffer. -/
def processChunks {β : Type} (fs : Nat) (chunks : List (List β)) :
    List (List β) × List β :=
  chunks.foldl
    (fun acc chunk =>
      let r := sliceFrames fs (acc.2 ++ chunk)
      (acc.1 ++ r.1, r.2))
    ([], [])

/-- Concrete vector: every point at the origin except point 12 = (1, 0);
its flat positions 24 and 25 hold 1 and 0. -/
def wA : List ℝ :=
  [0, 0, 0, 0, 0, 0, 0, 0, 0, 0, 0, 0, 0, 0, 0, 0, 0, 0, 0, 0, 0, 0,
   0, 0, 1, 0, 0, 0, 0, 0, 0, 0, 0, 0, 0, 0, 0, 0, 0, 0, 0, 0]

/-- Concrete vector: every point at the origin except point 12 = (0, 1). -/
def wB : List ℝ :=
  [0, 0, 0, 0, 0, 0, 0, 0, 0, 0, 0, 0, 0, 0, 0, 0, 0, 0, 0, 0, 0, 0,
   0, 0, 0, 1, 0, 0, 0, 0, 0, 0, 0, 0, 0, 0, 0, 0, 0, 0, 0, 0]

/-- Concrete stored gesture with landmarks `wA`. -/
def gdA : GestureData :=
  { landmarks := wA, created_at := "t0", description := "gesture A"
    trigger_action := "send_message", trigger_data := "/gesture/A" }

/-- Concrete stored gesture with landmarks `wB`. -/
def gdB : GestureData :=
  { landmarks := wB, created_at := "t0", description := "gesture B"
    trigger_action := "send_message", trigger_data := "/gesture/B" }

/-- Concrete two-template store, "A" first in iteration order. -/
def gesturesC1 : List (String × GestureData) := [("A", gdA), ("B", gdB)]

/-- Concrete settings: threshold 1/2, recognition on, cooldown 0.5 s. -/
noncomputable def settingsC1 : RecognizerSettings :=
  { similarity_threshold := 1 / 2, recognition_enabled := true, cooldown_time := 0.5 }

/-- Concrete cooldown state: template "A" last fired at time 1. -/
noncomputable def lttC1 : String → ℝ := fun n => if n = "A" then 1 else 0

/-- Fresh cooldown state: no template has fired (`.get(name, 0)` yields 0). -/
def lttZero : String → ℝ := fun _ => 0

lemma fin21_nine : ((9 : Fin 21) : ℕ) = 9 := rfl

lemma fin21_twelve : ((12 : Fin 21) : ℕ) = 12 := rfl

lemma wA_length : wA.length = 42 := rfl

lemma reshape_wA_nine : reshape wA 9 = (0, 0) := by
  simp [reshape, wA, fin21_nine, List.getD]

lemma centered_wA : centered_points wA = reshape wA := by
  funext i
  simp [centered_points, reshape_wA_nine]

lemma tipScale_wA : tipScale wA = 1 := by
  rw [tipScale, centered_wA]
  norm_num [reshape, wA, fin21_twelve, List.getD]

lemma normalize_wA : normalize_landmarks wA = some (reshape wA) := by
  rw [normalize_landmarks, if_pos wA_length, tipScale_wA, centered_wA]
  norm_num

lemma dotP_wA_wA : dotP (reshape wA) (reshape wA) = 1 := by
  simp [dotP, Fin.sum_univ_succ, reshape, wA, List.getD]

lemma normP_wA : normP (reshape wA) = 1 := by
  rw [normP]
  have h : ∑ i, ((reshape wA i).1 ^ 2 + (reshape wA i).2 ^ 2) = 1 := by
    simp [Fin.sum_univ_succ, reshape, wA, List.getD]
  rw [h, Real.sqrt_one]

lemma wB_length : wB.length = 42 := rfl

lemma reshape_wB_nine : reshape wB 9 = (0, 0) := by
  simp [reshape, wB, fin21_nine, List.getD]

lemma centered_wB : centered_points wB = reshape wB := by
  funext i
  simp [centered_points, reshape_wB_nine]

lemma tipScale_wB : tipScale wB = 1 := by
  rw [tipScale, centered_wB]
  norm_num [reshape, wB, fin21_twelve, List.getD]

lemma normalize_wB : normalize_landmarks wB = some (reshape wB) := by
  rw [normalize_landmarks, if_pos wB_length, tipScale_wB, centered_wB]
  norm_num

lemma normP_wB : normP (reshape wB) = 1 := by
  rw [normP]
  have h : ∑ i, ((reshape wB i).1 ^ 2 + (reshape wB i).2 ^ 2) = 1 := by
    simp [Fin.sum_univ_succ, reshape, wB, List.getD]
  rw [h, Real.sqrt_one]

lemma dotP_wA_wB : dotP (reshape wA) (reshape wB) = 0 := by
  simp [dotP, Fin.sum_univ_succ, reshape, wA, wB, List.getD]

lemma normalize_none (v : List ℝ) (h : v.length ≠ 42) :
    normalize_landmarks v = none := by
  rw [normalize_landmarks, if_neg h]

lemma calculate_similarity_some (l1 l2 : List ℝ) (n1 n2 : Fin 21 → ℝ × ℝ)
    (h1 : normalize_landmarks l1 = some n1) (h2 : normalize_landmarks l2 = some n2) :
    calculate_similarity l1 l2 =
      if normP n1 * normP n2 = 0 then 0
      else (dotP n1 n2 / (normP n1 * normP n2) + 1) / 2 := by
  simp only [calculate_similarity, h1, h2]

lemma calculate_similarity_wA_wA : calculate_similarity wA wA = 1 := by
  rw [calculate_similarity_some wA wA _ _ normalize_wA normalize_wA,
    normP_wA, dotP_wA_wA]
  norm_num

lemma calculate_similarity_wA_wB : calculate_similarity wA wB = 1 / 2 := by
  rw [calculate_similarity_some wA wB _ _ normalize_wA normalize_wB,
    normP_wA, normP_wB, dotP_wA_wB]
  norm_num

/-- C2: for every 42-length vector, `normalize_landmarks` succeeds and
centers point 9 at the origin; when the distance from the palm center to
point 12 is nonzero, that distance in the output equals exactly 1; when
it is zero, the output is the centered vector only. -/
theorem C2_normalize_centers_and_scales (v : List ℝ) (h42 : v.length = 42) :
    ∃ n, normalize_landmarks v = some n ∧ n 9 = (0, 0) ∧
      (tipScale v ≠ 0 → Real.sqrt ((n 12).1 ^ 2 + (n 12).2 ^ 2) = 1) ∧
      (tipScale v = 0 → n = centered_points v) := by
  have hc9 : centered_points v 9 = (0, 0) := by
    simp [centered_points]
  have hsq : (0 : ℝ) ≤ (centered_points v 12).1 ^ 2 + (centered_points v 12).2 ^ 2 := by
    positivity
  rw [normalize_landmarks, if_pos h42]
  by_cases hs : 0 < tipScale v
  · refine ⟨_, by rw [if_pos hs], ?_, ?_, ?_⟩
    · rw [hc9]
      norm_num
    · intro _
      have hs2 : tipScale v ^ 2 =
          (centered_points v 12).1 ^ 2 + (centered_points v 12).2 ^ 2 := by
        rw [tipScale, Real.sq_sqrt hsq]
      have hne : tipScale v ≠ 0 := ne_of_gt hs
      have hone : ((centered_points v 12).1 / tipScale v) ^ 2 +
          ((centered_points v 12).2 / tipScale v) ^ 2 = 1 := by
        field_simp
        rw [← hs2]
      rw [hone, Real.sqrt_one]
    · intro h0
      exact absurd h0 (ne_of_gt hs)
  · have h0 : tipScale v = 0 := by
      have := Real.sqrt_nonneg ((centered_points v 12).1 ^ 2 + (centered_points v 12).2 ^ 2)
      rw [tipScale] at hs ⊢
      linarith
    refine ⟨_, by rw [if_neg hs], hc9, ?_, fun _ => rfl⟩
    intro hne
    exact absurd h0 hne

/-- C2 witness: the hypothesis holds at the concrete vector `wA`. -/
theorem C2_witness : wA.length = 42 ∧
    (∃ n, normalize_landmarks wA = some n ∧ n 9 = (0, 0) ∧
      (tipScale wA ≠ 0 → Real.sqrt ((n 12).1 ^ 2 + (n 12).2 ^ 2) = 1) ∧
      (tipScale wA = 0 → n = centered_points wA)) :=
  ⟨rfl, C2_normalize_centers_and_scales wA rfl⟩

/-- C5: an input of any length other than 42 makes `normalize_landmarks`
fail with the invalid-landmark-count error (modelled as `none`); no
truncated or padded output is ever produced. -/
theorem C5_normalize_rejects_wrong_length (v : List ℝ) (h : v.length ≠ 42) :
    normalize_landmarks v = none :=
  normalize_none v h

/-- C5 witness: a vector of length 40 is rejected. -/
theorem C5_witness : (List.replicate 40 (0 : ℝ)).length ≠ 42 ∧
    normalize_landmarks (List.replicate 40 (0 : ℝ)) = none :=
  ⟨by simp, C5_normalize_rejects_wrong_length _ (by simp)⟩

/-- C6: self-similarity is 1 for a vector that normalizes to a nonzero
signature with nonzero palm-to-fingertip distance, and
`calculate_similarity` is symmetric in its two arguments. -/
theorem C6_self_similarity_and_symmetry :
    (∀ (v : List ℝ) (n : Fin 21 → ℝ × ℝ), normalize_landmarks v = some n →
      tipScale v ≠ 0 → normP n ≠ 0 → calculate_similarity v v = 1) ∧
    (∀ a b : List ℝ, calculate_similarity a b = calculate_similarity b a) := by
  constructor
  · intro v n hn _ hnz
    have hS : (0 : ℝ) ≤ ∑ i, ((n i).1 ^ 2 + (n i).2 ^ 2) := by
      positivity
    have hdot : dotP n n = ∑ i, ((n i).1 ^ 2 + (n i).2 ^ 2) := by
      rw [dotP]
      exact Finset.sum_congr rfl fun i _ => by ring
    have hmul : normP n * normP n = ∑ i, ((n i).1 ^ 2 + (n i).2 ^ 2) := by
      rw [normP]
      exact Real.mul_self_sqrt hS
    have hSne : (∑ i, ((n i).1 ^ 2 + (n i).2 ^ 2)) ≠ 0 := by
      intro h0
      apply hnz
      rw [normP, h0, Real.sqrt_zero]
    rw [calculate_similarity_some v v n n hn hn, hmul, hdot, if_neg hSne,
      div_self hSne]
    norm_num
  · intro a b
    have hdot : ∀ n1 n2, dotP n1 n2 = dotP n2 n1 := by
      intro n1 n2
      rw [dotP, dotP]
      exact Finset.sum_congr rfl fun i _ => by ring
    rcases h1 : normalize_landmarks a with _ | n1 <;>
      rcases h2 : normalize_landmarks b with _ | n2 <;>
        simp only [calculate_similarity, h1, h2]
    rw [hdot n1 n2, mul_comm (normP n1) (normP n2)]

/-- C6 witness: hypotheses discharged at the concrete vectors `wA`, `wB`. -/
theorem C6_witness : calculate_similarity wA wA = 1 ∧
    calculate_similarity wA wB = calculate_similarity wB wA :=
  ⟨C6_self_similarity_and_symmetry.1 wA (reshape wA) normalize_wA
      (by rw [tipScale_wA]; norm_num) (by rw [normP_wA]; norm_num),
    C6_self_similarity_and_symmetry.2 wA wB⟩

/-- C10: `calculate_similarity` is total and silently scores invalid-length
input as 0: whenever either argument does not have length 42 (the case in
which `normalize_landmarks` raises), the internal exception handler yields
0 rather than propagating the error. -/
theorem C10_similarity_zero_on_invalid_length (l1 l2 : List ℝ)
    (h : l1.length ≠ 42 ∨ l2.length ≠ 42) : calculate_similarity l1 l2 = 0 := by
  rcases h with h | h
  · simp only [calculate_similarity, normalize_none l1 h]
  · rcases h1 : normalize_landmarks l1 with _ | n1 <;>
      simp only [calculate_similarity, h1, normalize_none l2 h]

/-- C10 witness: empty lists are scored 0. -/
theorem C10_witness : (([] : List ℝ).length ≠ 42 ∨ ([] : List ℝ).length ≠ 42) ∧
    calculate_similarity [] [] = 0 :=
  ⟨Or.inl (by simp), C10_similarity_zero_on_invalid_length [] [] (Or.inl (by simp))⟩

lemma lttC1_A : lttC1 "A" = 1 := by
  simp [lttC1]

lemma lttC1_B : lttC1 "B" = 0 := by
  simp [lttC1]

lemma recognize_C1_eval :
    (recognize_gesture gesturesC1 settingsC1 lttC1 1 wA).1 =
      some ⟨"B", 1 / 2, "send_message", "/gesture/B", "gesture B"⟩ := by
  have hA : recognizeStep settingsC1 lttC1 1 wA (none, 0) ("A", gdA) = (none, 0) := by
    simp only [recognizeStep, gdA, calculate_similarity_wA_wA, settingsC1, lttC1_A]
    norm_num
  have hB : recognizeStep settingsC1 lttC1 1 wA (none, 0) ("B", gdB) =
      (some ⟨"B", 1 / 2, "send_message", "/gesture/B", "gesture B"⟩, 1 / 2) := by
    simp only [recognizeStep, gdB, calculate_similarity_wA_wB, settingsC1, lttC1_B]
    norm_num
  simp only [recognize_gesture, gesturesC1, List.isEmpty_cons, List.foldl_cons,
    List.foldl_nil, hA, hB]
  simp [settingsC1]

/-- C1 counterexample: with templates "A" (similarity 1) and "B"
(similarity 1/2), both at or above the threshold 1/2, the best candidate
"A" is within its cooldown window, yet `recognize_gesture` falls back and
returns template "B" — refuting the claim that no other template is
returned in that situation. -/
theorem C1_counterexample :
    calculate_similarity wA gdA.landmarks = 1 ∧
    calculate_similarity wA gdB.landmarks = 1 / 2 ∧
    settingsC1.similarity_threshold = 1 / 2 ∧
    (1 : ℝ) - lttC1 "A" < settingsC1.cooldown_time ∧
    (1 : ℝ) - lttC1 "B" ≥ settingsC1.cooldown_time ∧
    Option.map MatchResult.name (recognize_gesture gesturesC1 settingsC1 lttC1 1 wA).1 =
      some "B" := by
  refine ⟨calculate_similarity_wA_wA, calculate_similarity_wA_wB, rfl, ?_, ?_, ?_⟩
  · rw [lttC1_A, settingsC1]
    norm_num
  · rw [lttC1_B, settingsC1]
    norm_num
  · rw [recognize_C1_eval]
    rfl

lemma recognizeStep_preserves (settings : RecognizerSettings)
    (ltt : String → ℝ) (now : ℝ) (v : List ℝ) (acc : Option MatchResult × ℝ)
    (e : String × GestureData)
    (hacc : ∀ m, acc.1 = some m → m.similarity ≥ settings.similarity_threshold ∧
      now - ltt m.name ≥ settings.cooldown_time) :
    ∀ m, (recognizeStep settings ltt now v acc e).1 = some m →
      m.similarity ≥ settings.similarity_threshold ∧
      now - ltt m.name ≥ settings.cooldown_time := by
  intro m hm
  simp only [recognizeStep] at hm
  split_ifs at hm with h1 h2
  · simp only [Option.some.injEq] at hm
    subst hm
    exact ⟨h1.2, h2⟩
  · exact hacc m hm
  · exact hacc m hm

lemma recognizeFold_inv (settings : RecognizerSettings)
    (ltt : String → ℝ) (now : ℝ) (v : List ℝ) :
    ∀ (l : List (String × GestureData)) (acc : Option MatchResult × ℝ),
      (∀ m, acc.1 = some m → m.similarity ≥ settings.similarity_threshold ∧
        now - ltt m.name ≥ settings.cooldown_time) →
      ∀ m, (l.foldl (recognizeStep settings ltt now v) acc).1 = some m →
        m.similarity ≥ settings.similarity_threshold ∧
        now - ltt m.name ≥ settings.cooldown_time := by
  intro l
  induction l with
  | nil => intro acc hacc m hm; exact hacc m hm
  | cons e rest ih =>
      intro acc hacc m hm
      rw [List.foldl_cons] at hm
      exact ih _ (recognizeStep_preserves settings ltt now v acc e hacc) m hm

/-- C1 amended: every match `recognize_gesture` returns has similarity at
or above `similarity_threshold` and is outside its own cooldown window at
call time; however, when the highest-similarity above-threshold template
is within its cooldown window, `recognize_gesture` may fall back and
return another above-threshold, out-of-cooldown template rather than
returning none (the counterexample exhibits this fallback). -/
theorem C1_amended_match_invariant (gestures : List (String × GestureData))
    (settings : RecognizerSettings) (ltt : String → ℝ) (now : ℝ) (v : List ℝ)
    (m : MatchResult)
    (h : (recognize_gesture gestures settings ltt now v).1 = some m) :
    m.similarity ≥ settings.similarity_threshold ∧
    now - ltt m.name ≥ settings.cooldown_time := by
  simp only [recognize_gesture] at h
  split at h
  · simp at h
  · split at h
    · rename_i m' heq
      simp only [Option.some.injEq] at h
      subst h
      exact recognizeFold_inv settings ltt now v gestures (none, 0)
        (by intro m hm; simp at hm) m' heq
    · simp at h

lemma recognize_C1W_eval :
    (recognize_gesture gesturesC1 settingsC1 lttZero 1 wA).1 =
      some ⟨"A", 1, "send_message", "/gesture/A", "gesture A"⟩ := by
  have hA : recognizeStep settingsC1 lttZero 1 wA (none, 0) ("A", gdA) =
      (some ⟨"A", 1, "send_message", "/gesture/A", "gesture A"⟩, 1) := by
    simp only [recognizeStep, gdA, calculate_similarity_wA_wA, settingsC1, lttZero]
    norm_num
  have hB : recognizeStep settingsC1 lttZero 1 wA
      (some ⟨"A", 1, "send_message", "/gesture/A", "gesture A"⟩, 1) ("B", gdB) =
      (some ⟨"A", 1, "send_message", "/gesture/A", "gesture A"⟩, 1) := by
    simp only [recognizeStep, gdB, calculate_similarity_wA_wB, settingsC1, lttZero]
    norm_num
  simp only [recognize_gesture, gesturesC1, List.isEmpty_cons, List.foldl_cons,
    List.foldl_nil, hA, hB]
  simp [settingsC1]

/-- C1 witness: the amended invariant instantiated at a concrete call that
returns a match. -/
theorem C1_witness :
    (⟨"A", 1, "send_message", "/gesture/A", "gesture A"⟩ : MatchResult).similarity ≥
      settingsC1.similarity_threshold ∧
    (1 : ℝ) - lttZero "A" ≥ settingsC1.cooldown_time :=
  C1_amended_match_invariant gesturesC1 settingsC1 lttZero 1 wA _ recognize_C1W_eval

lemma recognize_single (name : String) (g : GestureData) (v : List ℝ)
    (ltt : String → ℝ) (t : ℝ)
    (hsim : calculate_similarity v g.landmarks ≥ 0.8)
    (hcd : t - ltt name ≥ 0.5) :
    recognize_gesture [(name, g)] ⟨0.8, true, 0.5⟩ ltt t v =
      (some ⟨name, calculate_similarity v g.landmarks, g.trigger_action,
        g.trigger_data, g.description⟩,
       fun n => if n = name then t else ltt n) := by
  have hstep : recognizeStep ⟨0.8, true, 0.5⟩ ltt t v (none, 0) (name, g) =
      (some ⟨name, calculate_similarity v g.landmarks, g.trigger_action,
        g.trigger_data, g.description⟩, calculate_similarity v g.landmarks) := by
    simp only [recognizeStep]
    rw [if_pos ⟨by simpa using lt_of_lt_of_le (by norm_num) hsim, by simpa using hsim⟩,
      if_pos (by simpa using hcd)]
  simp only [recognize_gesture, List.isEmpty_cons, List.foldl_cons, List.foldl_nil, hstep]
  simp

lemma recognize_single_cooldown (name : String) (g : GestureData) (v : List ℝ)
    (ltt : String → ℝ) (t : ℝ)
    (hcd : ¬ (t - ltt name ≥ 0.5)) :
    (recognize_gesture [(name, g)] ⟨0.8, true, 0.5⟩ ltt t v).1 = none := by
  have hstep : recognizeStep ⟨0.8, true, 0.5⟩ ltt t v (none, 0) (name, g) = (none, 0) := by
    simp only [recognizeStep]
    by_cases h1 : calculate_similarity v g.landmarks > (none (α := MatchResult), (0 : ℝ)).2 ∧
        calculate_similarity v g.landmarks ≥
          (⟨0.8, true, 0.5⟩ : RecognizerSettings).similarity_threshold
    · rw [if_pos h1, if_neg (by simpa using hcd)]
    · rw [if_neg h1]
  simp only [recognize_gesture, List.isEmpty_cons, List.foldl_cons, List.foldl_nil, hstep]
  simp

/-- C3: with a single stored template, threshold 0.8 and cooldown 0.5 s, an
input whose similarity is at or above the threshold matches at time `t`
(recording `t` as the template's last-trigger time), an identical call at
`t + 0.1` returns none, and a call at `t + 0.6` instead matches again. -/
theorem C3_cooldown_gating (name : String) (g : GestureData) (v : List ℝ) (t : ℝ)
    (hsim : calculate_similarity v g.landmarks ≥ 0.8) (ht : 0.5 ≤ t) :
    ∃ m : MatchResult,
      (recognize_gesture [(name, g)] ⟨0.8, true, 0.5⟩ lttZero t v).1 = some m ∧
      m.name = name ∧
      (recognize_gesture [(name, g)] ⟨0.8, true, 0.5⟩ lttZero t v).2 name = t ∧
      (recognize_gesture [(name, g)] ⟨0.8, true, 0.5⟩
        (recognize_gesture [(name, g)] ⟨0.8, true, 0.5⟩ lttZero t v).2 (t + 0.1) v).1 =
        none ∧
      (∃ m2 : MatchResult,
        (recognize_gesture [(name, g)] ⟨0.8, true, 0.5⟩
          (recognize_gesture [(name, g)] ⟨0.8, true, 0.5⟩ lttZero t v).2 (t + 0.6) v).1 =
          some m2 ∧ m2.name = name) := by
  have h1 := recognize_single name g v lttZero t hsim
    (by simp only [lttZero]; linarith)
  have hupd : (recognize_gesture [(name, g)] ⟨0.8, true, 0.5⟩ lttZero t v).2 name = t := by
    rw [h1]
    simp
  refine ⟨⟨name, calculate_similarity v g.landmarks, g.trigger_action,
    g.trigger_data, g.description⟩, by rw [h1], rfl, hupd, ?_, ?_⟩
  · apply recognize_single_cooldown
    rw [hupd]
    norm_num
  · refine ⟨⟨name, calculate_similarity v g.landmarks, g.trigger_action,
      g.trigger_data, g.description⟩, ?_, rfl⟩
    exact congrArg Prod.fst (recognize_single name g v _ (t + 0.6) hsim
      (by rw [hupd]; norm_num))

/-- C3 witness: the scenario realized with template `gdA` and input `wA`
at time 1. -/
theorem C3_witness : calculate_similarity wA gdA.landmarks ≥ 0.8 ∧ (0.5 : ℝ) ≤ 1 ∧
    (∃ m : MatchResult,
      (recognize_gesture [("A", gdA)] ⟨0.8, true, 0.5⟩ lttZero 1 wA).1 = some m ∧
      m.name = "A" ∧
      (recognize_gesture [("A", gdA)] ⟨0.8, true, 0.5⟩ lttZero 1 wA).2 "A" = 1 ∧
      (recognize_gesture [("A", gdA)] ⟨0.8, true, 0.5⟩
        (recognize_gesture [("A", gdA)] ⟨0.8, true, 0.5⟩ lttZero 1 wA).2 (1 + 0.1) wA).1 =
        none ∧
      (∃ m2 : MatchResult,
        (recognize_gesture [("A", gdA)] ⟨0.8, true, 0.5⟩
          (recognize_gesture [("A", gdA)] ⟨0.8, true, 0.5⟩ lttZero 1 wA).2 (1 + 0.6) wA).1 =
          some m2 ∧ m2.name = "A")) :=
  ⟨by rw [show gdA.landmarks = wA from rfl, calculate_similarity_wA_wA]; norm_num,
   by norm_num,
   C3_cooldown_gating "A" gdA wA 1
     (by rw [show gdA.landmarks = wA from rfl, calculate_similarity_wA_wA]; norm_num)
     (by norm_num)⟩

/-- C4 counterexample: `add_gesture` with an empty template name is not
rejected — it succeeds and inserts a template stored under the empty
name (with the name-derived trigger default "/gesture/"). -/
theorem C4_counterexample :
    add_gesture [] "" wA "" "send_message" "" "t0" =
      Except.ok [("", { landmarks := wA, created_at := "t0", description := "",
                        trigger_action := "send_message",
                        trigger_data := "/gesture/" })] := by
  rfl

/-- C4 amended: a vector whose length is not 42 makes `add_gesture` fail
with the invalid-landmark-count error before any state is touched; name
validation, however, is not performed by `add_gesture` itself — empty
names are accepted and inserted (the GUI save dialog is what rejects an
empty name before calling `add_gesture`). -/
theorem C4_add_rejects_wrong_length (gestures : List (String × GestureData))
    (name : String) (landmarks : List ℝ)
    (description trigger_action trigger_data created_at : String)
    (h : landmarks.length ≠ 42) :
    add_gesture gestures name landmarks description trigger_action trigger_data
      created_at = Except.error "InvalidLandmarkCount" := by
  rw [add_gesture, if_pos h]

/-- C4 witness: a length-40 vector is rejected. -/
theorem C4_witness : (List.replicate 40 (0 : ℝ)).length ≠ 42 ∧
    add_gesture [] "g" (List.replicate 40 (0 : ℝ)) "" "send_message" "" "t0" =
      Except.error "InvalidLandmarkCount" :=
  ⟨by simp, C4_add_rejects_wrong_length [] "g" _ "" "send_message" "" "t0" (by simp)⟩

/-- C7: pushing three frames through the capacity-2 drop-oldest buffer
leaves exactly the 2nd and 3rd frames in push order (the 1st is discarded
on overflow before the 3rd is enqueued), and the freshest-frame drain
retrieves the 3rd. -/
theorem C7_overflow_keeps_newest {α : Type} (f1 f2 f3 : α) :
    pushFrame 2 (pushFrame 2 (pushFrame 2 ([] : List α) f1) f2) f3 = [f2, f3] ∧
    get_latest_frame [f2, f3] = some f3 := by
  constructor <;> rfl

lemma sliceFrames_of_lt {β : Type} (fs : ℕ) (l : List β) (h : l.length < fs) :
    sliceFrames fs l = ([], l) := by
  rw [sliceFrames, dif_neg]
  omega

lemma sliceFrames_of_le {β : Type} (fs : ℕ) (l : List β) (hfs : 0 < fs)
    (h : fs ≤ l.length) :
    sliceFrames fs l = (l.take fs :: (sliceFrames fs (l.drop fs)).1,
      (sliceFrames fs (l.drop fs)).2) := by
  rw [sliceFrames, dif_pos ⟨hfs, h⟩]

lemma sliceFrames_char {β : Type} (fs : ℕ) (hfs : 0 < fs) :
    ∀ (n : ℕ) (l : List β), l.length ≤ n →
      (sliceFrames fs l).1.flatten ++ (sliceFrames fs l).2 = l ∧
      (∀ f ∈ (sliceFrames fs l).1, f.length = fs) ∧
      (sliceFrames fs l).2.length < fs := by
  intro n
  induction n with
  | zero =>
      intro l hl
      have hlt : l.length < fs := by omega
      rw [sliceFrames_of_lt fs l hlt]
      simpa using hlt
  | succ n ih =>
      intro l hl
      by_cases hle : fs ≤ l.length
      · rw [sliceFrames_of_le fs l hfs hle]
        have hdrop : (l.drop fs).length ≤ n := by
          rw [List.length_drop]
          omega
        obtain ⟨h1, h2, h3⟩ := ih (l.drop fs) hdrop
        refine ⟨?_, ?_, h3⟩
        · rw [List.flatten_cons, List.append_assoc, h1, List.take_append_drop]
        · intro f hf
          rcases List.mem_cons.mp hf with hf | hf
          · subst hf
            rw [List.length_take]
            omega
          · exact h2 f hf
      · have hlt : l.length < fs := by omega
        rw [sliceFrames_of_lt fs l hlt]
        simpa using hlt

lemma sliceFrames_append {β : Type} (fs : ℕ) (hfs : 0 < fs) :
    ∀ (n : ℕ) (l c : List β), l.length ≤ n →
      sliceFrames fs (l ++ c) =
        ((sliceFrames fs l).1 ++ (sliceFrames fs ((sliceFrames fs l).2 ++ c)).1,
         (sliceFrames fs ((sliceFrames fs l).2 ++ c)).2) := by
  intro n
  induction n with
  | zero =>
      intro l c hl
      have hlt : l.length < fs := by omega
      rw [sliceFrames_of_lt fs l hlt]
      simp
  | succ n ih =>
      intro l c hl
      by_cases hle : fs ≤ l.length
      · have hle2 : fs ≤ (l ++ c).length := by
          rw [List.length_append]
          omega
        rw [sliceFrames_of_le fs (l ++ c) hfs hle2,
          List.take_append_of_le_length hle, List.drop_append_of_le_length hle,
          sliceFrames_of_le fs l hfs hle,
          ih (l.drop fs) c (by rw [List.length_drop]; omega)]
        simp
      · have hlt : l.length < fs := by omega
        rw [sliceFrames_of_lt fs l hlt]
        simp


lemma processChunks_fold {β : Type} (fs : ℕ) (hfs : 0 < fs) :
    ∀ (chunks : List (List β)) (F : List (List β)) (B : List β), B.length < fs →
      chunks.foldl
        (fun acc chunk =>
          let r := sliceFrames fs (acc.2 ++ chunk)
          (acc.1 ++ r.1, r.2)) (F, B) =
      (F ++ (sliceFrames fs (B ++ chunks.flatten)).1,
       (sliceFrames fs (B ++ chunks.flatten)).2) := by
  intro chunks
  induction chunks with
  | nil =>
      intro F B hB
      rw [List.foldl_nil, List.flatten_nil, List.append_nil,
        sliceFrames_of_lt fs B hB]
      simp
  | cons c cs ih =>
      intro F B hB
      rw [List.foldl_cons]
      have hrem : (sliceFrames fs (B ++ c)).2.length < fs :=
        (sliceFrames_char fs hfs (B ++ c).length (B ++ c) le_rfl).2.2
      rw [ih (F ++ (sliceFrames fs (B ++ c)).1) (sliceFrames fs (B ++ c)).2 hrem,
        List.flatten_cons, ← List.append_assoc,
        sliceFrames_append fs hfs (B ++ c).length (B ++ c) cs.flatten le_rfl]
      simp

/-- C8: the planar-frame decoder's accumulate-and-slice loop is exact and
chunking-invariant: processing any sequence of arbitrarily sized chunks
yields the same frames and remainder as slicing the concatenated stream
at once; the emitted frames concatenate (in order) with the remainder
back to the stream, each frame is exactly one frame size, and the buffer
retained after any chunk sequence is shorter than one frame. -/
theorem C8_decoder_chunking_invariant {β : Type} (fs : ℕ) (chunks : List (List β))
    (hfs : 0 < fs) :
    processChunks fs chunks = sliceFrames fs chunks.flatten ∧
    (sliceFrames fs chunks.flatten).1.flatten ++ (sliceFrames fs chunks.flatten).2 =
      chunks.flatten ∧
    (∀ f ∈ (sliceFrames fs chunks.flatten).1, f.length = fs) ∧
    (sliceFrames fs chunks.flatten).2.length < fs := by
  obtain ⟨h1, h2, h3⟩ :=
    sliceFrames_char fs hfs chunks.flatten.length chunks.flatten le_rfl
  refine ⟨?_, h1, h2, h3⟩
  rw [processChunks, processChunks_fold fs hfs chunks [] [] (by simpa using hfs)]
  simp

/-- C8 witness: frame size 2 on the single chunk `[0, 1, 2]`. -/
theorem C8_witness : 0 < 2 ∧
    (processChunks 2 [[0, 1, 2]] = sliceFrames 2 ([[0, 1, 2]] : List (List ℕ)).flatten ∧
      (sliceFrames 2 ([[0, 1, 2]] : List (List ℕ)).flatten).1.flatten ++
        (sliceFrames 2 ([[0, 1, 2]] : List (List ℕ)).flatten).2 =
        ([[0, 1, 2]] : List (List ℕ)).flatten ∧
      (∀ f ∈ (sliceFrames 2 ([[0, 1, 2]] : List (List ℕ)).flatten).1, f.length = 2) ∧
      (sliceFrames 2 ([[0, 1, 2]] : List (List ℕ)).flatten).2.length < 2) :=
  ⟨by norm_num, C8_decoder_chunking_invariant 2 [[0, 1, 2]] (by norm_num)⟩

lemma is_healthy_false_iff (running : Bool) (current_time last_frame_time : ℝ)
    (consecutive_failures max_failures : ℕ) :
    is_healthy running current_time last_frame_time consecutive_failures
        max_failures = false ↔
      (running = false ∨ 3 ≤ current_time - last_frame_time ∨
        max_failures ≤ consecutive_failures) := by
  rw [is_healthy]
  by_cases hr : running = false
  · simp [hr]
  · rw [if_neg hr]
    simp only [Bool.and_eq_false_imp, decide_eq_true_eq, decide_eq_false_iff_not,
      not_lt]
    constructor
    · intro h
      by_cases h3 : 3 ≤ current_time - last_frame_time
      · exact Or.inr (Or.inl h3)
      · exact Or.inr (Or.inr (h (by push_neg at h3; norm_num; linarith)))
    · intro h hlt
      rcases h with h | h | h
      · exact absurd h hr
      · exfalso
        norm_num at hlt
        linarith
      · exact h

/-- C9 counterexample: with the reader running, a fresh frame
(`current_time - last_frame_time = 0`), and exactly 10 consecutive
failures, `is_healthy` returns false although none of the claim's three
conditions (stopped, more than 10 failures, 3-second staleness) holds —
the claimed equivalence fails at this state. -/
theorem C9_counterexample :
    ¬ (is_healthy true 0 0 10 10 = false ↔
        (true = false ∨ 10 < 10 ∨ (3 : ℝ) ≤ 0 - 0)) := by
  intro h
  have hfalse : is_healthy true 0 0 10 10 = false :=
    (is_healthy_false_iff true 0 0 10 10).mpr (Or.inr (Or.inr le_rfl))
  rcases h.mp hfalse with h' | h' | h' <;> norm_num at h'

/-- C9 amended: `is_healthy` (with the default failure threshold 10)
returns false exactly when the acquisition thread has stopped running, or
at least 10 consecutive read failures have occurred, or at least 3
seconds have passed since the last frame; otherwise it returns true. -/
theorem C9_health_characterization (running : Bool)
    (current_time last_frame_time : ℝ) (consecutive_failures : ℕ) :
    is_healthy running current_time last_frame_time consecutive_failures 10 = false ↔
      (running = false ∨ 10 ≤ consecutive_failures ∨
        3 ≤ current_time - last_frame_time) := by
  rw [is_healthy_false_iff]
  tauto

end GR
